import Mathlib

/-!
Verification development for the ai-programs-registry backend
(src/backend/app.py, src/backend/document_manager.py).

The file-storage layer and the compliance / initiative endpoints are
shallowly embedded: filesystem paths are component lists relative to the
process working directory, the filesystem is an association list from
paths to byte lists, database tables are lists of rows, and the HTTP
error paths (404, 413) are an explicit error type.  Timestamps are
passed in explicitly as naturals (the Python code reads the wall clock).
-/

namespace Registry

/-- Filesystem paths, as lists of path components (os.path.join chains). -/
abbrev Path := List String

/-- File contents, as a list of bytes. -/
abbrev Content := List Nat

/-- UPLOAD_DIR from document_manager.py (os.path.join(dirname, "..", "uploads")),
as a single root component. -/
def uploadDir : Path := ["uploads"]

/-- Embedding of os.path.relpath(p, UPLOAD_DIR) for paths constructed under
the upload directory: drop the upload-dir prefix. -/
def relpathFromUpload (p : Path) : Path := p.drop uploadDir.length

/-- Embedding of document_manager.get_document_full_path: join the storage
root with a root-relative path. -/
def get_document_full_path (relative_path : Path) : Path := uploadDir ++ relative_path

/-- The filesystem: an association list from full paths to contents.
Writing prepends, reading takes the first match, so a later write at the
same path shadows the earlier one (open(path, "wb") truncates). -/
structure FileSystem where
  files : List (Path × Content)
deriving DecidableEq

/-- First-match lookup in a list of (path, content) entries. -/
def lookupFiles (p : Path) : List (Path × Content) → Option Content
  | [] => none
  | (q, c) :: rest => if q = p then some c else lookupFiles p rest

namespace FileSystem

/-- Read the content stored at a path, if any. -/
def read (fs : FileSystem) (p : Path) : Option Content :=
  lookupFiles p fs.files

/-- Write content at a path (creating or overwriting the file). -/
def write (fs : FileSystem) (p : Path) (c : Content) : FileSystem :=
  ⟨(p, c) :: fs.files⟩

/-- Remove every entry stored at a path. -/
def erase (fs : FileSystem) (p : Path) : FileSystem :=
  ⟨fs.files.filter (fun e => !decide (e.1 = p))⟩

/-- Embedding of os.path.exists. -/
def hasFile (fs : FileSystem) (p : Path) : Bool :=
  (fs.read p).isSome

theorem read_write_self (fs : FileSystem) (p : Path) (c : Content) :
    (fs.write p c).read p = some c := by
  simp [write, read, lookupFiles]

theorem read_write_other (fs : FileSystem) {p q : Path} (c : Content) (h : p ≠ q) :
    (fs.write p c).read q = fs.read q := by
  simp [write, read, lookupFiles, h]

theorem lookupFiles_filter_ne {p q : Path} (h : p ≠ q) (l : List (Path × Content)) :
    lookupFiles q (l.filter (fun e => !decide (e.1 = p))) = lookupFiles q l := by
  induction l with
  | nil => rfl
  | cons e rest ih =>
    obtain ⟨ep, ec⟩ := e
    by_cases he : ep = p
    · have hq : ep ≠ q := by rw [he]; exact h
      simp [List.filter_cons, he, lookupFiles, hq, h, ih]
    · by_cases hq : ep = q
      · simp [List.filter_cons, he, lookupFiles, hq, Ne.symm h]
      · simp [List.filter_cons, he, lookupFiles, hq, ih]

theorem lookupFiles_filter_self (p : Path) (l : List (Path × Content)) :
    lookupFiles p (l.filter (fun e => !decide (e.1 = p))) = none := by
  induction l with
  | nil => rfl
  | cons e rest ih =>
    obtain ⟨ep, ec⟩ := e
    by_cases he : ep = p
    · simp [List.filter_cons, he, ih]
    · simp [List.filter_cons, he, lookupFiles, ih]

theorem read_erase_other (fs : FileSystem) {p q : Path} (h : p ≠ q) :
    (fs.erase p).read q = fs.read q :=
  lookupFiles_filter_ne h fs.files

theorem read_erase_self (fs : FileSystem) (p : Path) :
    (fs.erase p).read p = none :=
  lookupFiles_filter_self p fs.files

end FileSystem

/-- Truthiness of an Optional[int] in Python: None and 0 are falsy. -/
def pyTruthy : Option Nat → Bool
  | none => false
  | some n => decide (n ≠ 0)

/-- Base directory of one initiative's document tree
(document_manager.get_initiative_directories). -/
def initiativeBase (initiative_id : Nat) : Path :=
  uploadDir ++ ["initiatives", toString initiative_id]

/-- An initiative's core/required directory. -/
def initiativeCoreRequired (initiative_id : Nat) : Path :=
  initiativeBase initiative_id ++ ["core", "required"]

/-- An initiative's core/optional directory. -/
def initiativeCoreOptional (initiative_id : Nat) : Path :=
  initiativeBase initiative_id ++ ["core", "optional"]

/-- An initiative's ancillary directory. -/
def initiativeAncillary (initiative_id : Nat) : Path :=
  initiativeBase initiative_id ++ ["ancillary"]

/-- Embedding of document_manager.get_document_path.  The Python guards
are library_type == "core" and initiative_id, with Python truthiness on
the optional integer (None and 0 both fail the guard). -/
def get_document_path (library_type : String) (category : Option String)
    (initiative_id : Option Nat) (is_required : Bool) : Path :=
  if library_type = "admin" then
    if category = some "policy" then uploadDir ++ ["admin", "policies"]
    else if category = some "template" then uploadDir ++ ["admin", "templates"]
    else if category = some "howto" then uploadDir ++ ["admin", "howtos"]
    else uploadDir ++ ["admin"]
  else if library_type = "core" ∧ pyTruthy initiative_id then
    if is_required then initiativeCoreRequired (initiative_id.getD 0)
    else initiativeCoreOptional (initiative_id.getD 0)
  else if library_type = "ancillary" ∧ pyTruthy initiative_id then
    initiativeAncillary (initiative_id.getD 0)
  else
    uploadDir

/-- The timestamp-prefixed unique filename used by save_document_file and
copy_template_file (f-string "timestamp underscore filename"). -/
def uniqueFilename (timestamp : Nat) (filename : String) : String :=
  toString timestamp ++ "_" ++ filename

/-- Embedding of document_manager.save_document_file: resolve the target
directory, build the timestamp-prefixed name, write the bytes, and return
the path relative to the storage root together with the new filesystem. -/
def save_document_file (fs : FileSystem) (file_content : Content) (filename : String)
    (library_type : String) (category : Option String) (initiative_id : Option Nat)
    (is_required : Bool) (timestamp : Nat) : Path × FileSystem :=
  let target_dir := get_document_path library_type category initiative_id is_required
  let file_path := target_dir ++ [uniqueFilename timestamp filename]
  (relpathFromUpload file_path, fs.write file_path file_content)

/-- Errors surfaced by the document manager and the HTTP endpoints. -/
inductive ApiError where
  /-- FileNotFoundError / HTTP 404. -/
  | notFound : ApiError
  /-- HTTP 413, file larger than MAX_FILE_SIZE. -/
  | payloadTooLarge : ApiError
  /-- shutil.SameFileError raised by shutil.copy2 when source and target
  are the same file. -/
  | sameFile : ApiError
deriving DecidableEq

/-- The target path computed inside copy_template_file: the
initiative's core required or optional directory (target_dir) plus the
timestamp-prefixed unique filename. -/
def copyTargetPath (initiative_id : Nat) (new_filename : String) (is_required : Bool)
    (timestamp : Nat) : Path :=
  (if is_required then initiativeCoreRequired initiative_id
   else initiativeCoreOptional initiative_id) ++ [uniqueFilename timestamp new_filename]

/-- Embedding of document_manager.copy_template_file.  The source must
exist under the storage root; the target directory is the initiative's
core/required or core/optional directory; shutil.copy2 refuses to copy a
file onto itself (SameFileError), and otherwise duplicates the bytes. -/
def copy_template_file (fs : FileSystem) (template_path : Path) (initiative_id : Nat)
    (new_filename : String) (is_required : Bool) (timestamp : Nat) :
    Except ApiError (Path × FileSystem) :=
  let source_path := uploadDir ++ template_path
  match fs.read source_path with
  | none => .error .notFound
  | some content =>
    let target_path := copyTargetPath initiative_id new_filename is_required timestamp
    if target_path = source_path then .error .sameFile
    else .ok (relpathFromUpload target_path, fs.write target_path content)

/-- Archive destination used by delete_document_file: the root-level
hidden .archived directory, timestamp-prefixed basename. -/
def archivePath (timestamp : Nat) (source_path : Path) : Path :=
  uploadDir ++ [".archived", uniqueFilename timestamp (source_path.getLastD "")]

/-- Embedding of document_manager.delete_document_file: returns false and
changes nothing when the file is absent, otherwise moves the file into
the .archived directory (shutil.move = remove at source, place at
destination) and returns true. -/
def delete_document_file (fs : FileSystem) (relative_path : Path) (timestamp : Nat) :
    Bool × FileSystem :=
  let source_path := uploadDir ++ relative_path
  match fs.read source_path with
  | none => (false, fs)
  | some content =>
    (true, (fs.erase source_path).write (archivePath timestamp source_path) content)

/-! Database model: rows of the initiatives, documents and
document_requirements tables (schemas in models.py and
migrate_documents.py).  TIMESTAMP columns are naturals. -/

/-- Row of the initiatives table. -/
structure InitiativeRow where
  id : Nat
  name : String
  description : Option String
  department : Option String
  stage : Option String
  priority : Option String
  lead_name : Option String
  lead_email : Option String
  business_value : Option String
  technical_approach : Option String
  start_date : Option String
  end_date : Option String
  status : String
  created_at : Nat
  updated_at : Nat
deriving DecidableEq

/-- Row of the documents table (post-migration schema in
migrate_documents.py). -/
structure DocumentRow where
  id : Nat
  initiative_id : Option Nat
  filename : String
  file_path : Option Path
  file_size : Option Nat
  uploaded_by : Option String
  document_type : Option String
  library_type : String
  category : Option String
  is_template : Bool
  is_required : Bool
  template_id : Option Nat
  status : String
  description : Option String
  tags : Option String
deriving DecidableEq

/-- Row of the document_requirements table (columns as inserted by
migrate_documents.py). -/
structure DocumentRequirementRow where
  id : Nat
  name : String
  description : Option String
  category : Option String
  stage : Option String
  is_mandatory : Bool
  template_id : Option Nat
deriving DecidableEq

/-- The relational store. -/
structure Database where
  initiatives : List InitiativeRow
  documents : List DocumentRow
  requirements : List DocumentRequirementRow
deriving DecidableEq

/-- SQL equality on nullable text columns: comparing with NULL is never
true (three-valued logic collapses to false in a WHERE clause). -/
def sqlEqStr : Option String → Option String → Bool
  | some a, some b => decide (a = b)
  | _, _ => false

/-- Truthiness of an Optional[str] in Python: None and the empty string
are falsy. -/
def pyTruthyStr : Option String → Bool
  | none => false
  | some s => decide (s ≠ "")

/-- SELECT * FROM initiatives WHERE id = ? via execute_one: the first
matching row, if any. -/
def findInitiative (db : Database) (initiative_id : Nat) : Option InitiativeRow :=
  db.initiatives.find? (fun r => decide (r.id = initiative_id))

/-- MAX_FILE_SIZE from app.py: 50 * 1024 * 1024 bytes. -/
def MAX_FILE_SIZE : Nat := 50 * 1024 * 1024

/-- Result model of the compliance endpoint (the dict returned by
check_compliance_status).  The percentage is a rational: the Python
float arithmetic is exact at every value the claims mention. -/
structure ComplianceStatus where
  initiative_id : Nat
  total_required : Nat
  completed : Nat
  missing : List String
  compliance_percentage : ℚ
  status : String
deriving DecidableEq

/-- Embedding of app.py check_compliance_status (GET
/api/initiatives/id/compliance).  Requirements are the mandatory rows
whose stage equals the initiative's stage (SQL equality) or is NULL;
uploaded documents are the initiative's core, required, active rows;
the uploaded_types set comprehension keeps a document_type only when it
is truthy in Python (neither None nor the empty string); the Python set
subtraction is modelled by deduplicated lists. -/
def check_compliance_status (db : Database) (initiative_id : Nat) :
    Except ApiError ComplianceStatus :=
  match findInitiative db initiative_id with
  | none => .error .notFound
  | some initiative =>
    let required_docs := db.requirements.filter
      (fun r => r.is_mandatory && (sqlEqStr r.stage initiative.stage || r.stage.isNone))
    let uploaded_docs := db.documents.filter
      (fun d => decide (d.initiative_id = some initiative_id) &&
        decide (d.library_type = "core") && d.is_required && decide (d.status = "active"))
    let total_required := required_docs.length
    let completed := uploaded_docs.length
    let uploaded_types :=
      ((uploaded_docs.filter (fun d => pyTruthyStr d.document_type)).filterMap
        (fun d => d.document_type)).dedup
    let required_types := (required_docs.map (fun r => r.name)).dedup
    let missing := required_types.filter (fun n => !decide (n ∈ uploaded_types))
    let compliance_percentage : ℚ :=
      if total_required > 0 then (completed : ℚ) / (total_required : ℚ) * 100 else 100
    let status0 := if compliance_percentage = 100 then "compliant" else "non-compliant"
    let status :=
      if compliance_percentage ≥ 80 then "mostly-compliant"
      else if compliance_percentage ≥ 50 then "partially-compliant"
      else status0
    .ok {
      initiative_id := initiative_id
      total_required := total_required
      completed := completed
      missing := missing
      compliance_percentage := compliance_percentage
      status := status
    }

/-- Embedding of app.py get_initiative (GET /api/initiatives/id). -/
def get_initiative (db : Database) (initiative_id : Nat) : Except ApiError InitiativeRow :=
  match findInitiative db initiative_id with
  | none => .error .notFound
  | some r => .ok r

/-- Embedding of app.py delete_initiative (DELETE /api/initiatives/id):
soft delete, UPDATE initiatives SET status = deleted, updated_at = now
WHERE id = ?. -/
def delete_initiative (db : Database) (initiative_id : Nat) (now : Nat) :
    Except ApiError Database :=
  match findInitiative db initiative_id with
  | none => .error .notFound
  | some _ =>
    .ok { db with initiatives := db.initiatives.map (fun r =>
      if r.id = initiative_id then { r with status := "deleted", updated_at := now } else r) }

/-- SQLite ordering on a nullable text column: NULL sorts before any
text. -/
def sqlLeOptStr : Option String → Option String → Bool
  | none, _ => true
  | some _, none => false
  | some a, some b => decide (a ≤ b)

/-- Ascending comparison on the column named by sort_by (the endpoint's
regex restricts it to created_at, updated_at, priority or name;
created_at is the default and the fallthrough). -/
def initiativeKeyLe (sort_by : String) (a b : InitiativeRow) : Bool :=
  if sort_by = "name" then decide (a.name ≤ b.name)
  else if sort_by = "priority" then sqlLeOptStr a.priority b.priority
  else if sort_by = "updated_at" then decide (a.updated_at ≤ b.updated_at)
  else decide (a.created_at ≤ b.created_at)

/-- Embedding of app.py list_initiatives (GET /api/initiatives).  The
department, stage, priority and status filters are applied only when
truthy in Python (status defaults to "active"); ORDER BY the selected
column; LIMIT limit OFFSET skip. -/
def list_initiatives (db : Database) (skip limit : Nat)
    (department stage priority status : Option String)
    (sort_by sort_order : String) : List InitiativeRow :=
  let rows := db.initiatives.filter (fun r =>
    (!pyTruthyStr department || decide (r.department = department)) &&
    (!pyTruthyStr stage || decide (r.stage = stage)) &&
    (!pyTruthyStr priority || decide (r.priority = priority)) &&
    (!pyTruthyStr status || decide (some r.status = status)))
  let sorted :=
    if sort_order = "asc" then rows.mergeSort (initiativeKeyLe sort_by)
    else rows.mergeSort (fun a b => initiativeKeyLe sort_by b a)
  (sorted.drop skip).take limit

/-- State seen by the upload endpoints: the relational store, the
filesystem, and the autoincrement counter of the documents table. -/
structure ServerState where
  db : Database
  fs : FileSystem
  next_doc_id : Nat
deriving DecidableEq

/-- Embedding of app.py upload_core_document (POST
/api/initiatives/id/documents/core): 404 when the initiative is absent,
413 when the payload exceeds MAX_FILE_SIZE (checked before any write),
otherwise save the file via the document manager and insert a documents
row (library_type core; is_template and version and status take their
column defaults 0, 1 and active).  The state is returned unchanged on
every error path. -/
def upload_core_document (st : ServerState) (initiative_id : Nat) (is_required : Bool)
    (document_type description tags : Option String) (filename : String)
    (contents : Content) (username : String) (timestamp : Nat) :
    Except ApiError Nat × ServerState :=
  match findInitiative st.db initiative_id with
  | none => (.error .notFound, st)
  | some _ =>
    if contents.length > MAX_FILE_SIZE then (.error .payloadTooLarge, st)
    else
      let saved := save_document_file st.fs contents filename "core" none
        (some initiative_id) is_required timestamp
      let doc : DocumentRow := {
        id := st.next_doc_id
        initiative_id := some initiative_id
        filename := filename
        file_path := some saved.1
        file_size := some contents.length
        uploaded_by := some username
        document_type := document_type
        library_type := "core"
        category := none
        is_template := false
        is_required := is_required
        template_id := none
        status := "active"
        description := description
        tags := tags
      }
      (.ok st.next_doc_id,
        { st with
          fs := saved.2
          db := { st.db with documents := st.db.documents ++ [doc] }
          next_doc_id := st.next_doc_id + 1 })

/-! Concrete rows and states used to instantiate the theorems. -/

/-- An initiative row with the given id, stage and status and the column
defaults elsewhere. -/
def mkInitiative (id : Nat) (stage : Option String) (status : String) : InitiativeRow :=
  { id := id, name := "Initiative", description := none, department := none
    stage := stage, priority := none, lead_name := none, lead_email := none
    business_value := none, technical_approach := none, start_date := none
    end_date := none, status := status, created_at := 0, updated_at := 0 }

/-- A mandatory document requirement with the given name and stage. -/
def mkRequirement (id : Nat) (name : String) (stage : Option String) :
    DocumentRequirementRow :=
  { id := id, name := name, description := none, category := none, stage := stage
    is_mandatory := true, template_id := none }

/-- An active core required document for an initiative, with the given
document type. -/
def mkCoreDoc (id : Nat) (initiative_id : Nat) (document_type : Option String) :
    DocumentRow :=
  { id := id, initiative_id := some initiative_id, filename := "doc.pdf"
    file_path := none, file_size := none, uploaded_by := none
    document_type := document_type, library_type := "core", category := none
    is_template := false, is_required := true, template_id := none
    status := "active", description := none, tags := none }

/-- Initiative 1 at stage discovery with no requirement rows at all:
total_required is 0, the vacuously-compliant case. -/
def dbNoRequirements : Database :=
  { initiatives := [mkInitiative 1 (some "discovery") "active"]
    documents := [], requirements := [] }

/-- The two-requirement discovery scenario of the spec, after one core
required Business Case document was uploaded. -/
def dbScenario : Database :=
  { initiatives := [mkInitiative 1 (some "discovery") "active"]
    documents := [mkCoreDoc 1 1 (some "Business Case")]
    requirements := [mkRequirement 1 "Business Case" (some "discovery"),
      mkRequirement 2 "Risk Assessment" (some "discovery")] }

/-- One mandatory requirement but two active core required documents
(one without a document_type): completed exceeds total_required. -/
def dbOverComplete : Database :=
  { initiatives := [mkInitiative 1 (some "discovery") "active"]
    documents := [mkCoreDoc 1 1 (some "Business Case"), mkCoreDoc 2 1 none]
    requirements := [mkRequirement 1 "Business Case" (some "discovery")] }

/-- A server state with initiative 1, an empty filesystem and an empty
documents table. -/
def stOne : ServerState :=
  { db := dbNoRequirements, fs := ⟨[]⟩, next_doc_id := 1 }

/-- The archive helper lifted to the full server state: the module
document_manager.py performs no database access, so the registry rows
are carried through unchanged. -/
def delete_document_file_state (st : ServerState) (relative_path : Path) (timestamp : Nat) :
    Bool × ServerState :=
  ((delete_document_file st.fs relative_path timestamp).1,
   { st with fs := (delete_document_file st.fs relative_path timestamp).2 })

/-- A filesystem holding one template file at admin/templates/t.txt. -/
def fsTemplate : FileSystem :=
  ⟨[(uploadDir ++ ["admin", "templates", "t.txt"], [1, 2, 3])]⟩

/-- A mandatory requirement named by the empty string together with an
active core required document whose document_type is the empty string:
the document_type is non-null but falsy in Python. -/
def dbEmptyType : Database :=
  { initiatives := [mkInitiative 1 (some "discovery") "active"]
    documents := [mkCoreDoc 1 1 (some "")]
    requirements := [mkRequirement 1 "" (some "discovery")] }

/-- The scenario database after soft-deleting initiative 1 at time 5. -/
def dbScenarioDeleted : Database :=
  { dbScenario with initiatives :=
      [{ mkInitiative 1 (some "discovery") "active" with
         status := "deleted", updated_at := 5 }] }

/-! Theorems. -/

/-- SQL equality against a possibly-NULL stage, disjoined with the IS
NULL test, agrees with plain option equality disjoined with the same
test. -/
theorem sqlEqStr_or_isNone (a b : Option String) :
    (sqlEqStr a b || a.isNone) = (decide (a = b) || a.isNone) := by
  cases a <;> cases b <;> simp [sqlEqStr]

/-- C1: the spec's status banding gives "compliant" whenever the
percentage is 100, but in check_compliance_status the later unguarded
percentage-at-least-80 branch overrides the percentage-equal-100
assignment, so a fully compliant initiative (here: no requirement rows,
percentage 100) is reported "mostly-compliant". -/
theorem check_compliance_status_full_percentage_not_compliant :
    check_compliance_status dbNoRequirements 1 =
      .ok { initiative_id := 1, total_required := 0, completed := 0, missing := []
            compliance_percentage := 100, status := "mostly-compliant" } := by
  norm_num [check_compliance_status, findInitiative, dbNoRequirements, mkInitiative,
    List.find?_cons, List.filter_cons, List.filter_nil, List.filterMap_cons]

/-- C2: for an existing initiative the compliance check returns
percentage completed divided by total_required times 100 when
total_required is positive and 100 otherwise, with total_required the
count of mandatory requirements whose stage equals the initiative's
stage or is null, and completed the count of the initiative's core,
required, active documents. -/
theorem check_compliance_status_percentage_formula (db : Database) (iid : Nat)
    (ini : InitiativeRow) (h : findInitiative db iid = some ini) :
    ∃ c, check_compliance_status db iid = .ok c ∧
      c.total_required = (db.requirements.filter (fun r =>
        r.is_mandatory && (decide (r.stage = ini.stage) || r.stage.isNone))).length ∧
      c.completed = (db.documents.filter (fun d =>
        decide (d.initiative_id = some iid) && decide (d.library_type = "core") &&
        d.is_required && decide (d.status = "active"))).length ∧
      c.compliance_percentage =
        (if c.total_required > 0 then (c.completed : ℚ) / (c.total_required : ℚ) * 100
         else 100) := by
  unfold check_compliance_status
  rw [h]
  refine ⟨_, rfl, ?_, rfl, rfl⟩
  exact congrArg List.length (List.filter_congr (fun r _ => by
    rw [sqlEqStr_or_isNone]))

/-- C2 witness: the spec's discovery-stage scenario, two mandatory
requirements and one uploaded Business Case document. -/
theorem check_compliance_status_percentage_formula_witness :
    ∃ c, check_compliance_status dbScenario 1 = .ok c ∧
      c.total_required = (dbScenario.requirements.filter (fun r =>
        r.is_mandatory &&
        (decide (r.stage = (mkInitiative 1 (some "discovery") "active").stage) ||
          r.stage.isNone))).length ∧
      c.completed = (dbScenario.documents.filter (fun d =>
        decide (d.initiative_id = some 1) && decide (d.library_type = "core") &&
        d.is_required && decide (d.status = "active"))).length ∧
      c.compliance_percentage =
        (if c.total_required > 0 then (c.completed : ℚ) / (c.total_required : ℚ) * 100
         else 100) :=
  check_compliance_status_percentage_formula dbScenario 1
    (mkInitiative 1 (some "discovery") "active") (by decide)

/-- C4 counterexample: uploaded_types is built with Python truthiness
(app.py uses the test if doc.document_type), which drops the empty
string as well as null.  With a mandatory requirement named by the
empty string and a document whose document_type is the empty string
(non-null), the code returns that name in missing even though it is a
member of the non-null document_type values, refuting the claim's
"non-null" reading of the set difference. -/
theorem check_compliance_status_missing_empty_type :
    ∃ c, check_compliance_status dbEmptyType 1 = .ok c ∧
      "" ∈ c.missing ∧
      "" ∈ (dbEmptyType.documents.filter (fun d =>
        decide (d.initiative_id = some 1) && decide (d.library_type = "core") &&
        d.is_required && decide (d.status = "active"))).filterMap
          (fun d => d.document_type) := by
  refine ⟨{ initiative_id := 1, total_required := 1, completed := 1,
            missing := [""], compliance_percentage := 100,
            status := "mostly-compliant" }, ?_, by decide, by decide⟩
  norm_num [check_compliance_status, findInitiative, dbEmptyType, mkInitiative,
    mkCoreDoc, mkRequirement, sqlEqStr, pyTruthyStr, List.find?_cons, List.filter_cons,
    List.filter_nil, List.filterMap_cons, List.dedup_cons_of_mem,
    List.dedup_cons_of_not_mem, List.dedup_nil]

/-- C4 (amended): the missing list of the compliance check is exactly
the set difference of the required requirement names and the truthy
(non-null and non-empty, by Python truthiness) document types of the
initiative's active core required documents; in particular missing
never contains a truthy uploaded type. -/
theorem check_compliance_status_missing_setdiff (db : Database) (iid : Nat)
    (ini : InitiativeRow) (h : findInitiative db iid = some ini) :
    ∃ c, check_compliance_status db iid = .ok c ∧
      (∀ n : String, n ∈ c.missing ↔
        (n ∈ (db.requirements.filter (fun r =>
            r.is_mandatory && (sqlEqStr r.stage ini.stage || r.stage.isNone))).map
              (fun r => r.name) ∧
         n ∉ ((db.documents.filter (fun d =>
            decide (d.initiative_id = some iid) && decide (d.library_type = "core") &&
            d.is_required && decide (d.status = "active"))).filter
              (fun d => pyTruthyStr d.document_type)).filterMap
              (fun d => d.document_type))) ∧
      (∀ n ∈ c.missing,
         n ∉ ((db.documents.filter (fun d =>
            decide (d.initiative_id = some iid) && decide (d.library_type = "core") &&
            d.is_required && decide (d.status = "active"))).filter
              (fun d => pyTruthyStr d.document_type)).filterMap
              (fun d => d.document_type)) := by
  unfold check_compliance_status
  rw [h]
  refine ⟨_, rfl, ?_, ?_⟩
  · intro n
    simp [List.mem_filter, List.mem_dedup]
  · intro n hn
    have := (List.mem_filter.mp hn).2
    simp only [Bool.not_eq_true', decide_eq_false_iff_not, List.mem_dedup] at this
    exact this

/-- C4 witness: in the discovery scenario the missing list is exactly
the requirement names minus the uploaded Business Case type. -/
theorem check_compliance_status_missing_setdiff_witness :
    ∃ c, check_compliance_status dbScenario 1 = .ok c ∧
      (∀ n : String, n ∈ c.missing ↔
        (n ∈ (dbScenario.requirements.filter (fun r =>
            r.is_mandatory &&
            (sqlEqStr r.stage (mkInitiative 1 (some "discovery") "active").stage ||
              r.stage.isNone))).map (fun r => r.name) ∧
         n ∉ ((dbScenario.documents.filter (fun d =>
            decide (d.initiative_id = some 1) && decide (d.library_type = "core") &&
            d.is_required && decide (d.status = "active"))).filter
              (fun d => pyTruthyStr d.document_type)).filterMap
              (fun d => d.document_type))) ∧
      (∀ n ∈ c.missing,
         n ∉ ((dbScenario.documents.filter (fun d =>
            decide (d.initiative_id = some 1) && decide (d.library_type = "core") &&
            d.is_required && decide (d.status = "active"))).filter
              (fun d => pyTruthyStr d.document_type)).filterMap
              (fun d => d.document_type)) :=
  check_compliance_status_missing_setdiff dbScenario 1
    (mkInitiative 1 (some "discovery") "active") (by decide)

/-- C5: completed is the raw row count of the initiative's core,
required, active documents (null or duplicate document types included),
and with one mandatory requirement but two such documents the check
returns completed 2, total_required 1 and percentage 200 with no
clamping to 100. -/
theorem check_compliance_status_completed_raw_count :
    (∀ (db : Database) (iid : Nat) (ini : InitiativeRow),
      findInitiative db iid = some ini →
      ∃ c, check_compliance_status db iid = .ok c ∧
        c.completed = (db.documents.filter (fun d =>
          decide (d.initiative_id = some iid) && decide (d.library_type = "core") &&
          d.is_required && decide (d.status = "active"))).length) ∧
    (∃ c, check_compliance_status dbOverComplete 1 = .ok c ∧
      c.completed = 2 ∧ c.total_required = 1 ∧ c.compliance_percentage = 200 ∧
      c.completed > c.total_required ∧ c.compliance_percentage > 100) := by
  constructor
  · intro db iid ini h
    unfold check_compliance_status
    rw [h]
    exact ⟨_, rfl, rfl⟩
  · refine ⟨{ initiative_id := 1, total_required := 1, completed := 2,
              missing := [], compliance_percentage := 200,
              status := "mostly-compliant" }, ?_, rfl, rfl, rfl,
      by decide, by norm_num⟩
    norm_num [check_compliance_status, findInitiative, dbOverComplete, mkInitiative,
      mkCoreDoc, mkRequirement, sqlEqStr, pyTruthyStr, List.find?_cons, List.filter_cons,
      List.filter_nil, List.filterMap_cons, List.dedup_cons_of_mem,
      List.dedup_cons_of_not_mem, List.dedup_nil]
    decide

/-- C5 witness: the raw-count clause applied to the over-complete
database. -/
theorem check_compliance_status_completed_raw_count_witness :
    ∃ c, check_compliance_status dbOverComplete 1 = .ok c ∧
      c.completed = (dbOverComplete.documents.filter (fun d =>
        decide (d.initiative_id = some 1) && decide (d.library_type = "core") &&
        d.is_required && decide (d.status = "active"))).length :=
  check_compliance_status_completed_raw_count.1 dbOverComplete 1
    (mkInitiative 1 (some "discovery") "active") (by decide)

/-- C3: for an upload to an existing initiative, a payload strictly
larger than MAX_FILE_SIZE is rejected with 413 and the state (filesystem
and registry) is returned untouched, so no orphan file or row results;
a payload of exactly MAX_FILE_SIZE passes the size check and the upload
succeeds. -/
theorem upload_core_document_size_cap (st : ServerState) (iid : Nat) (req : Bool)
    (document_type description tags : Option String) (filename : String)
    (contents : Content) (username : String) (ts : Nat) (ini : InitiativeRow)
    (hfind : findInitiative st.db iid = some ini) :
    (contents.length > MAX_FILE_SIZE →
      upload_core_document st iid req document_type description tags filename
        contents username ts = (.error .payloadTooLarge, st)) ∧
    (contents.length = MAX_FILE_SIZE →
      (upload_core_document st iid req document_type description tags filename
        contents username ts).1 = .ok st.next_doc_id) := by
  constructor
  · intro hlen
    unfold upload_core_document
    rw [hfind]
    simp [hlen]
  · intro hlen
    unfold upload_core_document
    rw [hfind]
    simp [hlen]

/-- C3 witness: a payload of MAX_FILE_SIZE plus one byte is rejected with
the state unchanged, and a payload of exactly MAX_FILE_SIZE is accepted. -/
theorem upload_core_document_size_cap_witness :
    (upload_core_document stOne 1 true none none none "doc.pdf"
      (List.replicate (MAX_FILE_SIZE + 1) 0) "admin" 7 = (.error .payloadTooLarge, stOne)) ∧
    ((upload_core_document stOne 1 true none none none "doc.pdf"
      (List.replicate MAX_FILE_SIZE 0) "admin" 7).1 = .ok stOne.next_doc_id) := by
  constructor
  · exact (upload_core_document_size_cap stOne 1 true none none none "doc.pdf"
      (List.replicate (MAX_FILE_SIZE + 1) 0) "admin" 7
      (mkInitiative 1 (some "discovery") "active") (by decide)).1
      (by simp)
  · exact (upload_core_document_size_cap stOne 1 true none none none "doc.pdf"
      (List.replicate MAX_FILE_SIZE 0) "admin" 7
      (mkInitiative 1 (some "discovery") "active") (by decide)).2
      (by simp)

/-- Every directory the path resolver returns lies under the upload
root. -/
theorem get_document_path_under (library_type : String) (category : Option String)
    (initiative_id : Option Nat) (is_required : Bool) :
    ∃ rest, get_document_path library_type category initiative_id is_required =
      uploadDir ++ rest := by
  unfold get_document_path initiativeCoreRequired initiativeCoreOptional
    initiativeAncillary initiativeBase
  split_ifs <;> exact ⟨_, rfl⟩

/-- C9: saving a payload and reading the returned root-relative path
back through the storage root yields byte-identical content; in
particular the returned path is relative to the root, which is
prepended on resolution. -/
theorem save_document_file_roundtrip (fs : FileSystem) (content : Content)
    (filename library_type : String) (category : Option String)
    (initiative_id : Option Nat) (is_required : Bool) (ts : Nat) :
    (save_document_file fs content filename library_type category initiative_id
        is_required ts).2.read
      (get_document_full_path
        (save_document_file fs content filename library_type category initiative_id
          is_required ts).1) = some content := by
  obtain ⟨rest, hrest⟩ :=
    get_document_path_under library_type category initiative_id is_required
  unfold save_document_file
  dsimp only
  rw [hrest, List.append_assoc]
  unfold relpathFromUpload get_document_full_path
  rw [List.drop_left]
  exact FileSystem.read_write_self _ _ _

/-- C8 counterexample: with library type core, a provided initiative id
of 0 is falsy in Python, so the resolver returns the generic fallback
root instead of the initiative's core/required directory. -/
theorem get_document_path_zero_id_fallback :
    get_document_path "core" none (some 0) true = uploadDir ∧
    get_document_path "core" none (some 0) true ≠ initiativeCoreRequired 0 := by
  constructor
  · decide
  · decide

/-- C8 (amended): the path resolver is a deterministic function mapping
admin categories policy, template and howto to their fixed
subdirectories, any other admin category to the generic admin directory,
core and ancillary with a nonzero initiative id to the initiative's
core/required, core/optional or ancillary directory, and everything else
(no initiative id, an id of 0, or an unknown library type) to the
generic fallback root. -/
theorem get_document_path_cases (category : Option String) (iid : Nat) (req : Bool)
    (lib : String) (oid : Option Nat) :
    (get_document_path "admin" (some "policy") oid req = uploadDir ++ ["admin", "policies"]) ∧
    (get_document_path "admin" (some "template") oid req = uploadDir ++ ["admin", "templates"]) ∧
    (get_document_path "admin" (some "howto") oid req = uploadDir ++ ["admin", "howtos"]) ∧
    (category ≠ some "policy" → category ≠ some "template" → category ≠ some "howto" →
      get_document_path "admin" category oid req = uploadDir ++ ["admin"]) ∧
    (iid ≠ 0 → get_document_path "core" category (some iid) true = initiativeCoreRequired iid) ∧
    (iid ≠ 0 → get_document_path "core" category (some iid) false = initiativeCoreOptional iid) ∧
    (iid ≠ 0 → get_document_path "ancillary" category (some iid) req = initiativeAncillary iid) ∧
    ((lib = "core" ∨ lib = "ancillary") → pyTruthy oid = false →
      get_document_path lib category oid req = uploadDir) ∧
    (lib ≠ "admin" → lib ≠ "core" → lib ≠ "ancillary" →
      get_document_path lib category oid req = uploadDir) := by
  refine ⟨rfl, rfl, rfl, ?_, ?_, ?_, ?_, ?_, ?_⟩
  · intro h1 h2 h3
    simp [get_document_path, h1, h2, h3]
  · intro h
    simp [get_document_path, pyTruthy, h]
  · intro h
    simp [get_document_path, pyTruthy, h]
  · intro h
    simp [get_document_path, pyTruthy, h]
  · rintro (h | h) hfalse <;> subst h <;> simp [get_document_path, hfalse]
  · intro h1 h2 h3
    simp [get_document_path, h1, h2, h3]

/-- C8 witness: the resolver evaluated across the branches at concrete
arguments. -/
theorem get_document_path_cases_witness :
    (get_document_path "admin" (some "howto") none false = uploadDir ++ ["admin", "howtos"]) ∧
    (get_document_path "admin" none none false = uploadDir ++ ["admin"]) ∧
    (get_document_path "core" none (some 7) true = initiativeCoreRequired 7) ∧
    (get_document_path "core" none (some 7) false = initiativeCoreOptional 7) ∧
    (get_document_path "ancillary" none (some 7) false = initiativeAncillary 7) ∧
    (get_document_path "core" none none true = uploadDir) ∧
    (get_document_path "other" none (some 7) true = uploadDir) := by
  have h := get_document_path_cases none 7 false "other" none
  have h2 := get_document_path_cases none 7 true "core" none
  exact ⟨(get_document_path_cases none 7 false "other" none).2.2.1,
    h.2.2.2.1 (by decide) (by decide) (by decide),
    h.2.2.2.2.1 (by decide),
    h.2.2.2.2.2.1 (by decide),
    h.2.2.2.2.2.2.1 (by decide),
    h2.2.2.2.2.2.2.2.1 (Or.inl rfl) (by decide),
    h.2.2.2.2.2.2.2.2 (by decide) (by decide) (by decide)⟩

/-- C7: archiving a relative path returns false and leaves the
filesystem unchanged when the file does not exist; otherwise it returns
true and the file now sits in the root-level .archived directory under
a timestamp-prefixed name (and is gone from its original location when
that differs from the archive destination); lifted to the server state,
the documents registry is untouched either way. -/
theorem delete_document_file_spec (fs : FileSystem) (relative_path : Path) (ts : Nat) :
    (fs.read (uploadDir ++ relative_path) = none →
      delete_document_file fs relative_path ts = (false, fs)) ∧
    (∀ content, fs.read (uploadDir ++ relative_path) = some content →
      (delete_document_file fs relative_path ts).1 = true ∧
      (delete_document_file fs relative_path ts).2.read
        (archivePath ts (uploadDir ++ relative_path)) = some content ∧
      (uploadDir ++ relative_path ≠ archivePath ts (uploadDir ++ relative_path) →
        (delete_document_file fs relative_path ts).2.read
          (uploadDir ++ relative_path) = none)) ∧
    (∀ st : ServerState, (delete_document_file_state st relative_path ts).2.db = st.db) := by
  refine ⟨?_, ?_, fun st => rfl⟩
  · intro h
    unfold delete_document_file
    dsimp only
    rw [h]
  · intro content h
    unfold delete_document_file
    dsimp only
    rw [h]
    refine ⟨rfl, FileSystem.read_write_self _ _ _, ?_⟩
    intro hne
    rw [FileSystem.read_write_other _ _ (Ne.symm hne)]
    exact FileSystem.read_erase_self _ _

/-- C7 witness: archiving the concrete template file, and a missing
path. -/
theorem delete_document_file_spec_witness :
    (delete_document_file fsTemplate ["nope.txt"] 9 = (false, fsTemplate)) ∧
    ((delete_document_file fsTemplate ["admin", "templates", "t.txt"] 9).1 = true ∧
      (delete_document_file fsTemplate ["admin", "templates", "t.txt"] 9).2.read
        (archivePath 9 (uploadDir ++ ["admin", "templates", "t.txt"])) = some [1, 2, 3] ∧
      (delete_document_file fsTemplate ["admin", "templates", "t.txt"] 9).2.read
        (uploadDir ++ ["admin", "templates", "t.txt"]) = none) := by
  have h1 := (delete_document_file_spec fsTemplate ["nope.txt"] 9).1 (by decide)
  have h2 := (delete_document_file_spec fsTemplate ["admin", "templates", "t.txt"] 9).2.1
    [1, 2, 3] (by decide)
  exact ⟨h1, h2.1, h2.2.1, h2.2.2 (by decide)⟩

/-- C6: copy_template_file fails with NotFound when no file exists at
the template-relative path under the storage root; otherwise, with the
generated timestamp-prefixed name fresh (the target path differing from
the source, as shutil.copy2 refuses to copy a file onto itself), it
returns the root-relative path of a byte-for-byte copy placed in the
initiative's core required or optional directory, leaves the original
untouched, and a later archive of the original does not affect the
copied file's content. -/
theorem copy_template_file_spec (fs : FileSystem) (template_path : Path)
    (iid : Nat) (new_filename : String) (req : Bool) (ts ts' : Nat) :
    (fs.read (uploadDir ++ template_path) = none →
      copy_template_file fs template_path iid new_filename req ts = .error .notFound) ∧
    (∀ content, fs.read (uploadDir ++ template_path) = some content →
      copyTargetPath iid new_filename req ts ≠ uploadDir ++ template_path →
      ∃ fs',
        copy_template_file fs template_path iid new_filename req ts =
          .ok (relpathFromUpload (copyTargetPath iid new_filename req ts), fs') ∧
        fs'.read (get_document_full_path
          (relpathFromUpload (copyTargetPath iid new_filename req ts))) = some content ∧
        fs'.read (uploadDir ++ template_path) = some content ∧
        (delete_document_file fs' template_path ts').2.read
          (get_document_full_path
            (relpathFromUpload (copyTargetPath iid new_filename req ts))) = some content) := by
  constructor
  · intro h
    unfold copy_template_file
    dsimp only
    rw [h]
  · intro content h hne
    have hfull : get_document_full_path
        (relpathFromUpload (copyTargetPath iid new_filename req ts)) =
        copyTargetPath iid new_filename req ts := by
      cases req <;>
        simp [copyTargetPath, initiativeCoreRequired, initiativeCoreOptional,
          initiativeBase, relpathFromUpload, get_document_full_path, uploadDir]
    unfold copy_template_file
    dsimp only
    rw [h]
    dsimp only
    rw [if_neg hne]
    refine ⟨_, rfl, ?_, ?_, ?_⟩
    · rw [hfull]
      exact FileSystem.read_write_self _ _ _
    · rw [FileSystem.read_write_other _ _ hne]
      exact h
    · rw [hfull]
      have hread : (fs.write (copyTargetPath iid new_filename req ts) content).read
          (uploadDir ++ template_path) = some content := by
        rw [FileSystem.read_write_other _ _ hne]
        exact h
      unfold delete_document_file
      dsimp only
      rw [hread]
      have harch : copyTargetPath iid new_filename req ts ≠
          archivePath ts' (uploadDir ++ template_path) := by
        cases req <;>
          simp [copyTargetPath, initiativeCoreRequired, initiativeCoreOptional,
            initiativeBase, archivePath, uploadDir]
      rw [FileSystem.read_write_other _ _ (Ne.symm harch)]
      rw [FileSystem.read_erase_other _ (Ne.symm hne)]
      exact FileSystem.read_write_self _ _ _

/-- C6 witness: copying the concrete template into initiative 5 and then
archiving the original leaves the copy byte-identical. -/
theorem copy_template_file_spec_witness :
    (copy_template_file fsTemplate ["missing.txt"] 5 "f.txt" true 7 = .error .notFound) ∧
    (∃ fs',
      copy_template_file fsTemplate ["admin", "templates", "t.txt"] 5 "f.txt" true 7 =
        .ok (relpathFromUpload (copyTargetPath 5 "f.txt" true 7), fs') ∧
      fs'.read (get_document_full_path
        (relpathFromUpload (copyTargetPath 5 "f.txt" true 7))) = some [1, 2, 3] ∧
      fs'.read (uploadDir ++ ["admin", "templates", "t.txt"]) = some [1, 2, 3] ∧
      (delete_document_file fs' ["admin", "templates", "t.txt"] 9).2.read
        (get_document_full_path
          (relpathFromUpload (copyTargetPath 5 "f.txt" true 7))) = some [1, 2, 3]) :=
  ⟨(copy_template_file_spec fsTemplate ["missing.txt"] 5 "f.txt" true 7 9).1 (by decide),
   (copy_template_file_spec fsTemplate ["admin", "templates", "t.txt"] 5 "f.txt" true 7 9).2
     [1, 2, 3] (by decide) (by decide)⟩

/-- C10 counterexample: the soft delete does not only set status to
deleted, it also refreshes updated_at, so its result differs from a pure
status-only update of the row. -/
theorem delete_initiative_touches_updated_at :
    (delete_initiative dbScenario 1 5).toOption ≠
      some { dbScenario with initiatives := dbScenario.initiatives.map (fun r =>
        if r.id = 1 then { r with status := "deleted" } else r) } := by
  decide

/-- C10 (amended): deleting an existing initiative sets its status to
deleted and refreshes updated_at, never removes the row, leaves every
other field and every other row intact; afterwards the initiative is
excluded from any listing filtered on status active (the default) but is
still returned by the get-by-id lookup. -/
theorem delete_initiative_soft_delete (db : Database) (iid now : Nat) (db' : Database)
    (h : delete_initiative db iid now = .ok db') :
    db'.initiatives.length = db.initiatives.length ∧
    (∀ r ∈ db.initiatives, r.id ≠ iid → r ∈ db'.initiatives) ∧
    (∀ r ∈ db.initiatives, r.id = iid →
      { r with status := "deleted", updated_at := now } ∈ db'.initiatives) ∧
    (∀ r, get_initiative db iid = .ok r →
      get_initiative db' iid = .ok { r with status := "deleted", updated_at := now }) ∧
    (∀ skip limit dep stg pri sb so,
      ∀ r ∈ list_initiatives db' skip limit dep stg pri (some "active") sb so,
        r.id ≠ iid) := by
  unfold delete_initiative at h
  rcases hf : findInitiative db iid with _ | a
  · rw [hf] at h
    exact absurd h (by simp)
  rw [hf] at h
  dsimp only at h
  injection h with h
  subst h
  have hid : ∀ x : InitiativeRow,
      (if x.id = iid then { x with status := "deleted", updated_at := now } else x).id
        = x.id := by
    intro x
    by_cases hx : x.id = iid <;> simp [hx]
  refine ⟨by simp, ?_, ?_, ?_, ?_⟩
  · intro r hr hne
    exact List.mem_map.mpr ⟨r, hr, by simp [hne]⟩
  · intro r hr hr1
    exact List.mem_map.mpr ⟨r, hr, by simp [hr1]⟩
  · intro r hr
    have hg : findInitiative db iid = some r := by
      unfold get_initiative at hr
      rcases hgg : findInitiative db iid with _ | r0
      · rw [hgg] at hr
        exact absurd hr (by simp)
      · rw [hgg] at hr
        dsimp only at hr
        injection hr with h2
        rw [h2]
    unfold get_initiative
    have hrid : r.id = iid := by
      have := List.find?_some hg
      exact of_decide_eq_true this
    have hmap : findInitiative
        { db with initiatives := db.initiatives.map (fun x =>
          if x.id = iid then { x with status := "deleted", updated_at := now } else x) }
        iid = some { r with status := "deleted", updated_at := now } := by
      unfold findInitiative at hg ⊢
      dsimp only
      rw [List.find?_map]
      have hpred : ((fun x : InitiativeRow => decide (x.id = iid)) ∘ (fun x =>
          if x.id = iid then { x with status := "deleted", updated_at := now } else x)) =
          (fun x : InitiativeRow => decide (x.id = iid)) := by
        funext x
        simp only [Function.comp_apply, hid]
      rw [hpred, hg]
      simp [hrid]
    rw [hmap]
  · intro skip limit dep stg pri sb so r hr
    intro hrid
    unfold list_initiatives at hr
    dsimp only at hr
    have hsorted := (List.drop_sublist _ _).subset ((List.take_sublist _ _).subset hr)
    have hmain : (∃ x ∈ db.initiatives,
        (if x.id = iid then { x with status := "deleted", updated_at := now } else x) = r) ∧
        r.status = "active" := by
      by_cases hso : so = "asc" <;> simp [hso, pyTruthyStr] at hsorted <;>
        exact ⟨hsorted.1, hsorted.2.2⟩
    obtain ⟨⟨x, hx, hfx⟩, hact⟩ := hmain
    by_cases hxid : x.id = iid
    · rw [if_pos hxid] at hfx
      rw [← hfx] at hact
      simp at hact
    · rw [if_neg hxid] at hfx
      rw [← hfx] at hrid
      exact hxid hrid

/-- C10 witness: after soft-deleting initiative 1 of the scenario
database at time 5, the row is still present and returned by the
get-by-id lookup with status deleted and updated_at 5. -/
theorem delete_initiative_soft_delete_witness :
    get_initiative dbScenarioDeleted 1 =
      .ok { mkInitiative 1 (some "discovery") "active" with
            status := "deleted", updated_at := 5 } ∧
    { mkInitiative 1 (some "discovery") "active" with
      status := "deleted", updated_at := 5 } ∈ dbScenarioDeleted.initiatives := by
  have H := delete_initiative_soft_delete dbScenario 1 5 dbScenarioDeleted (by rfl)
  exact ⟨H.2.2.2.1 (mkInitiative 1 (some "discovery") "active") (by rfl),
    H.2.2.1 (mkInitiative 1 (some "discovery") "active") (by decide) rfl⟩

end Registry
